import Mathlib

/-!
# Agent Orchestrator — verification of the Core against its source

Shallow embedding of the Core subsystems of the `agent-orchestrator`
repository: the Trigger Engine (`packages/core/src/trigger-engine.ts`),
the Lifecycle Manager and Reaction Engine (`lifecycle-manager.ts`), and
the GitHub webhook receiver
(`packages/web/src/app/api/webhooks/github/route.ts`,
`packages/web/src/lib/webhook-utils.ts`).

JavaScript strings are modelled as Lean `String` (lengths and slices count
characters), `undefined`/absent fields as `Option`, in-memory `Map`s as
association lists, and wall-clock milliseconds as `Nat`.  Plugin calls that
perform I/O are modelled by explicit result parameters; a call that may
throw is given an `Option`-valued result (`none` = the call threw and the
surrounding `try`/`catch` caught it) or an explicit failure flag.
-/

namespace AO

/-! ## String helpers (JS semantics) -/

/-- `sub.isInfixOf l` in executable form: models JS `String.prototype.includes`. -/
def containsSub (sub : List Char) : List Char → Bool
  | [] => sub.isEmpty
  | c :: rest => sub.isPrefixOf (c :: rest) || containsSub sub rest

/-- JS `haystack.includes(needle)`. -/
def strIncludes (haystack needle : String) : Bool :=
  containsSub needle.data haystack.data

/-- JS `s.endsWith(suffix)`. -/
def strEndsWith (s suf : String) : Bool :=
  suf.data.isSuffixOf s.data

/-- JS `s.replace(pat, "")` with a string pattern: removes the first
occurrence of `pat` only. -/
def replaceFirst (pat : String) : List Char → List Char
  | [] => []
  | c :: rest =>
    if pat.data.isPrefixOf (c :: rest) then (c :: rest).drop pat.data.length
    else c :: replaceFirst pat rest

/-- Decimal digits to a number, as JS `parseInt(_, 10)` on an all-digit string. -/
def digitsToNat (cs : List Char) : Nat :=
  cs.foldl (fun n c => n * 10 + (c.toNat - 48)) 0

/-- JS truthiness of an optional string: `undefined` and `""` are falsy. -/
def truthyStr : Option String → Bool
  | none => false
  | some s => s ≠ ""

/-- Lookup in a flat metadata map (association list). -/
def getMeta (m : List (String × String)) (k : String) : Option String :=
  (m.find? (fun p => p.1 = k)).map (·.2)

/-- Set a key in a flat metadata map, overwriting an existing binding. -/
def setMeta (m : List (String × String)) (k v : String) : List (String × String) :=
  if m.any (fun p => p.1 = k) then
    m.map (fun p => if p.1 = k then (k, v) else p)
  else (k, v) :: m

/-! ## Data model

`TrackerEvent` is the normalized webhook event of
`packages/core/src/types.ts`; `Session` carries the fields the embedded
code reads.  Statuses and PRP phases are the literal strings of the
source. -/

structure TrackerEvent where
  provider : String
  deliveryId : String
  event : String
  action : String
  issueNumber : Nat
  /-- `issue.id`, set to `String(issue.number)` by normalization. -/
  issueId : String
  issueUrl : String
  repo : String
  label : Option String
  assignee : Option String
  commentBody : Option String
  deriving Repr, DecidableEq

structure TriggerRule where
  /-- The TS field `on` (a reserved token in Lean). -/
  ruleOn : String
  label : Option String
  assignee : Option String
  deriving Repr, DecidableEq

structure Session where
  id : String
  projectId : String
  status : String
  issueId : Option String
  metadata : List (String × String)
  branch : Option String
  deriving Repr, DecidableEq

structure PrpGates where
  plan : Bool
  pr : Bool
  deriving Repr, DecidableEq

structure PrpWriteback where
  investigation : Option Bool
  plan : Option Bool
  implementation : Option Bool
  pr : Option Bool
  deriving Repr, DecidableEq

structure PrpConfig where
  enabled : Bool
  gates : Option PrpGates
  writeback : Option PrpWriteback
  deriving Repr, DecidableEq

structure ProjectConfig where
  repo : String
  path : String
  githubSecret : Option String
  planeWorkspaceId : Option String
  triggers : List TriggerRule
  trackerPlugin : Option String
  prp : Option PrpConfig
  deriving Repr, DecidableEq

/-- `config.projects` as an ordered key/value list (`Object.entries` order). -/
structure OrchestratorConfig where
  projects : List (String × ProjectConfig)
  deriving Repr, DecidableEq

/-- First project whose key equals `pid` (object keys are unique). -/
def lookupProject (config : OrchestratorConfig) (pid : String) : Option ProjectConfig :=
  (config.projects.find? (fun p => p.1 = pid)).map (·.2)

/-! ## Trigger Engine — `packages/core/src/trigger-engine.ts` -/

def DELIVERY_TTL_MS : Nat := 600000

/-- `pruneDeliveries`: drop entries with `now - ts > DELIVERY_TTL_MS`. -/
def pruneDeliveries (now : Nat) (m : List (String × Nat)) : List (String × Nat) :=
  m.filter (fun p => ¬ (now - p.2 > DELIVERY_TTL_MS))

/-- `isDuplicate`: prune, then check-and-insert.  Returns the duplicate flag
and the updated `seenDeliveries` map. -/
def isDuplicate (now : Nat) (deliveryId : String) (m : List (String × Nat)) :
    Bool × List (String × Nat) :=
  let m' := pruneDeliveries now m
  if m'.any (fun p => p.1 = deliveryId) then (true, m')
  else (false, (deliveryId, now) :: m')

/-- `findProject`: first project matching the event by repo (github) or by
workspace id appearing in `event.repo` (plane). -/
def findProject (event : TrackerEvent) (config : OrchestratorConfig) : Option String :=
  (config.projects.find? (fun p =>
    if event.provider = "github" then p.2.repo = event.repo
    else if event.provider = "plane" then
      match p.2.planeWorkspaceId with
      | some wid => wid ≠ "" && strIncludes event.repo wid
      | none => false
    else false)).map (·.1)

/-- `ruleMatches`: the label filter applies only to `issue.labeled` rules and
the assignee filter only to `issue.assigned` rules. -/
def ruleMatches (rule : TriggerRule) (event : TrackerEvent) : Bool :=
  if rule.ruleOn ≠ event.event then false
  else if rule.ruleOn = "issue.labeled" ∧ truthyStr rule.label then
    event.label = rule.label
  else if rule.ruleOn = "issue.assigned" ∧ truthyStr rule.assignee then
    event.assignee = rule.assignee
  else true

/-- The status list of the duplicate-spawn guard in `evaluateTriggers`. -/
def terminalStatuses : List String :=
  ["killed", "terminated", "done", "cleanup", "errored", "merged"]

structure SpawnDecision where
  projectId : String
  issueId : String
  matchedRule : TriggerRule
  deriving Repr, DecidableEq

/-- The duplicate-spawn guard predicate of step 4 of `evaluateTriggers`. -/
def isActiveFor (issueId : String) (s : Session) : Bool :=
  (match s.issueId with
   | some iid => strIncludes iid issueId
   | none => false) &&
  ¬ terminalStatuses.contains s.status

/-- Steps 2–4 of `evaluateTriggers` (everything after the idempotency
check, which is the only part touching the dedup map). -/
def evaluateDecision (event : TrackerEvent) (config : OrchestratorConfig)
    (sessionsOf : String → List Session) : Option SpawnDecision :=
  match findProject event config with
  | none => none
  | some projectId =>
    match lookupProject config projectId with
    | none => none
    | some project =>
      match project.triggers.find? (fun rule => ruleMatches rule event) with
      | none => none
      | some matchedRule =>
        let issueId := toString event.issueNumber
        if (sessionsOf projectId).any (isActiveFor issueId) then none
        else some ⟨projectId, issueId, matchedRule⟩

/-- `evaluateTriggers`.  `sessionsOf pid` models `sessionManager.list(pid)`;
the dedup map is threaded explicitly. -/
def evaluateTriggers (now : Nat) (event : TrackerEvent) (config : OrchestratorConfig)
    (sessionsOf : String → List Session) (dedup : List (String × Nat)) :
    Option SpawnDecision × List (String × Nat) :=
  let step1 := isDuplicate now event.deliveryId dedup
  (if step1.1 then none else evaluateDecision event config sessionsOf, step1.2)

/-- Rule matching as the C8 claim words it: every filter present on the rule
must equal the corresponding event field, whatever the event kind. -/
def ruleMatchesSpec (rule : TriggerRule) (event : TrackerEvent) : Bool :=
  rule.ruleOn = event.event &&
  (match rule.label with
   | some l => event.label = some l
   | none => true) &&
  (match rule.assignee with
   | some a => event.assignee = some a
   | none => true)

/-! ## Reaction Engine — `executeReaction` in the lifecycle manager -/

/-- `parseDuration`: the regex `(digits)(s|m|h)` anchored at both ends;
anything else parses to `0`. -/
def parseDuration (s : String) : Nat :=
  let cs := s.data
  match cs.getLast? with
  | none => 0
  | some unit =>
    let digits := cs.dropLast
    if digits ≠ [] ∧ digits.all Char.isDigit then
      let value := digitsToNat digits
      if unit = 's' then value * 1000
      else if unit = 'm' then value * 60000
      else if unit = 'h' then value * 3600000
      else 0
    else 0

/-- `escalateAfter` is either a count (`number`) or a duration string. -/
inductive EscalateAfter
  | num (n : Nat)
  | dur (s : String)
  deriving Repr, DecidableEq

structure ReactionConfig where
  auto : Option Bool
  action : Option String
  message : Option String
  priority : Option String
  retries : Option Nat
  escalateAfter : Option EscalateAfter
  deriving Repr, DecidableEq

/-- The `(sessionId, reactionKey)` tracker entry. -/
structure ReactionTracker where
  attempts : Nat
  firstTriggered : Nat
  deriving Repr, DecidableEq

/-- The escalation decision of `executeReaction`, after `attempts` was
incremented.  `retries ?? Infinity` makes the retries clause false when
`retries` is absent; the duration clause additionally requires
`durationMs > 0`. -/
def shouldEscalate (cfg : ReactionConfig) (tr : ReactionTracker) (now : Nat) : Bool :=
  (match cfg.retries with
   | some r => decide (r < tr.attempts)
   | none => false) ||
  (match cfg.escalateAfter with
   | some (.dur s) =>
     let durationMs := parseDuration s
     decide (0 < durationMs) && decide (durationMs < now - tr.firstTriggered)
   | _ => false) ||
  (match cfg.escalateAfter with
   | some (.num n) => decide (n < tr.attempts)
   | _ => false)

/-- Observable outcome of one `executeReaction` invocation. -/
structure ReactionResult where
  tracker : ReactionTracker
  escalated : Bool
  actionTaken : String
  sentMessage : Option String
  notifyPriority : Option String
  emittedEvent : Option String
  success : Bool
  deriving Repr, DecidableEq

/-- `executeReaction`: look up or create the tracker, increment `attempts`,
decide escalation, then perform the action.  `sendFails` models
`sessionManager.send` throwing. -/
def executeReaction (now : Nat) (cfg : ReactionConfig)
    (prev : Option ReactionTracker) (sendFails : Bool) : ReactionResult :=
  let t0 := prev.getD { attempts := 0, firstTriggered := now }
  let tr : ReactionTracker := { t0 with attempts := t0.attempts + 1 }
  if shouldEscalate cfg tr now then
    { tracker := tr, escalated := true, actionTaken := "escalated",
      sentMessage := none, notifyPriority := some (cfg.priority.getD "urgent"),
      emittedEvent := some "reaction.escalated", success := true }
  else
    let fallThrough : String → ReactionResult := fun a =>
      { tracker := tr, escalated := false, actionTaken := a,
        sentMessage := none, notifyPriority := none,
        emittedEvent := none, success := false }
    match cfg.action.getD "notify" with
    | "send-to-agent" =>
      if truthyStr cfg.message then
        if sendFails then
          { tracker := tr, escalated := false, actionTaken := "send-to-agent",
            sentMessage := none, notifyPriority := none,
            emittedEvent := none, success := false }
        else
          { tracker := tr, escalated := false, actionTaken := "send-to-agent",
            sentMessage := cfg.message, notifyPriority := none,
            emittedEvent := none, success := true }
      else fallThrough "send-to-agent"
    | "notify" =>
      { tracker := tr, escalated := false, actionTaken := "notify",
        sentMessage := none, notifyPriority := some (cfg.priority.getD "info"),
        emittedEvent := some "reaction.triggered", success := true }
    | "auto-merge" =>
      { tracker := tr, escalated := false, actionTaken := "auto-merge",
        sentMessage := none, notifyPriority := some "action",
        emittedEvent := some "reaction.triggered", success := true }
    | other => fallThrough other

/-- The escalation condition as the C4 claim states it: no positivity
requirement on the parsed duration. -/
def escalationClaimC4 (cfg : ReactionConfig) (attempts elapsed : Nat) : Bool :=
  (match cfg.retries with
   | some r => decide (r < attempts)
   | none => false) ||
  (match cfg.escalateAfter with
   | some (.dur s) => decide (parseDuration s < elapsed)
   | _ => false) ||
  (match cfg.escalateAfter with
   | some (.num n) => decide (n < attempts)
   | _ => false)

/-- The `ci-failed` reaction of the C5 scenario. -/
def ciFailedReaction : ReactionConfig :=
  { auto := none, action := some "send-to-agent",
    message := some "CI failed — please fix", priority := some "warning",
    retries := some 2, escalateAfter := some (.dur "30m") }

/-! ## Lifecycle Manager — `determineStatus`

`PR_STATE` and `CI_STATUS` live in `types.ts`, which only enters the
embedding through equality tests against `PR_STATE.MERGED`,
`PR_STATE.CLOSED` and `CI_STATUS.FAILING`; they are modelled as opaque-free
inductives.  Review decisions are compared against string literals in the
source and stay strings. -/

inductive PRState
  | merged
  | closed
  | openPR
  deriving Repr, DecidableEq

inductive CIStatus
  | failing
  | passing
  | pending
  deriving Repr, DecidableEq

/-- Results of the plugin probes one `determineStatus` call makes.  A `none`
result models the corresponding call rejecting (caught by the source's
`try`/`catch`); `runtimeAliveResult = none` models `isAlive` rejecting,
which `.catch(() => true)` converts to `true`. -/
structure ProbeEnv where
  runtimeAliveResult : Option Bool
  getOutputFails : Bool
  terminalOutput : String
  activity : String
  isProcessRunningFails : Bool
  processRunning : Bool
  prStateResult : Option PRState
  ciStatusResult : Option CIStatus
  reviewDecisionResult : Option String
  mergeableResult : Option Bool
  deriving Repr, DecidableEq

/-- Step 3 of `determineStatus` (the SCM cascade).  `none` means an SCM
probe that was reached threw, so control falls to the step-4 default. -/
def scmStatus (env : ProbeEnv) : Option String :=
  match env.prStateResult with
  | none => none
  | some prState =>
    if prState = .merged then some "merged"
    else if prState = .closed then some "killed"
    else
      match env.ciStatusResult with
      | none => none
      | some ci =>
        if ci = .failing then some "ci_failed"
        else
          match env.reviewDecisionResult with
          | none => none
          | some rd =>
            if rd = "changes_requested" then some "changes_requested"
            else if rd = "approved" then
              match env.mergeableResult with
              | none => none
              | some m => some (if m then "mergeable" else "approved")
            else if rd = "pending" then some "review_pending"
            else some "pr_open"

/-- Step 2 of `determineStatus` (terminal output and agent activity), as an
early-return value (`none` = fall through to step 3). -/
def agentActivityStatus (hasRuntimePlugin : Bool) (sessionStatus : String)
    (env : ProbeEnv) : Option String :=
  let preserve : Option String :=
    if sessionStatus = "stuck" ∨ sessionStatus = "needs_input"
    then some sessionStatus else none
  if hasRuntimePlugin ∧ env.getOutputFails then preserve
  else
    let out := if hasRuntimePlugin then env.terminalOutput else ""
    if out ≠ "" then
      if env.activity = "waiting_input" then some "needs_input"
      else if env.isProcessRunningFails then preserve
      else if ¬ env.processRunning then some "killed"
      else none
    else none

/-- `determineStatus`: runtime liveness, then agent activity, then the SCM
cascade, then the step-4 default promotion. -/
def determineStatus (hasRuntimePlugin hasAgent hasSCM : Bool)
    (runtimeHandle : Option String) (sessionStatus : String)
    (hasPR : Bool) (env : ProbeEnv) : String :=
  if runtimeHandle.isSome ∧ hasRuntimePlugin ∧ env.runtimeAliveResult.getD true = false then
    "killed"
  else
    match (if hasAgent ∧ runtimeHandle.isSome
           then agentActivityStatus hasRuntimePlugin sessionStatus env
           else none) with
    | some s => s
    | none =>
      match (if hasPR ∧ hasSCM then scmStatus env else none) with
      | some s => s
      | none =>
        if sessionStatus = "spawning" ∨ sessionStatus = "stuck" ∨
           sessionStatus = "needs_input"
        then "working" else sessionStatus

/-! ## Lifecycle Manager — PRP plan gate (`checkSession`, `buildPlanGateComment`)

The plans directory of a workspace is modelled as an optional list of
`(fileName, content)` pairs in `readdirSync` order; `none` models a missing
`workspacePath` or a `readdirSync`/`readFileSync` error (both caught). -/

def MAX_PLAN_LENGTH : Nat := 4000

/-- The `planContent` computed inside `buildPlanGateComment`: first
`.plan.md` file, truncated at 4000 characters. -/
def planContentOf (plansDir : Option (List (String × String))) : String :=
  match plansDir with
  | none => "(No plan file found)"
  | some files =>
    match files.filter (fun f => strEndsWith f.1 ".plan.md") with
    | [] => "(No plan file found)"
    | f :: _ =>
      if MAX_PLAN_LENGTH < f.2.length then
        f.2.take MAX_PLAN_LENGTH ++ "\n\n... (truncated — see full plan in workspace)"
      else f.2

/-- `buildPlanGateComment`. -/
def buildPlanGateComment (sessionId : String)
    (plansDir : Option (List (String × String))) : String :=
  String.intercalate "\n"
    [ "📋 **Agent Orchestrator** session `" ++ sessionId ++
        "` has created a plan and is waiting for approval."
    , ""
    , "<details>"
    , "<summary>View Plan</summary>"
    , ""
    , planContentOf plansDir
    , ""
    , "</details>"
    , ""
    , "> **To approve**: comment \"approved\", \"lgtm\", or \"proceed\" on this issue."
    , "> The agent will resume automatically." ]

/-- `getPrpWritebackComment`. -/
def getPrpWritebackComment (sessionId : String) (newPhase : String) : Option String :=
  if newPhase = "investigating" then
    some ("🔍 **Agent Orchestrator** session `" ++ sessionId ++
      "` started investigating this issue.")
  else if newPhase = "planning" then
    some ("📋 **Agent Orchestrator** session `" ++ sessionId ++
      "` is creating an implementation plan.")
  else if newPhase = "planning_complete" then
    some ("📋 **Agent Orchestrator** session `" ++ sessionId ++
      "` has completed the implementation plan.")
  else if newPhase = "implementing" then
    some ("🔨 **Agent Orchestrator** session `" ++ sessionId ++
      "` is implementing the plan.")
  else none

/-- JS `x !== false` on an optional boolean (`wb?.plan !== false`). -/
def notFalse : Option Bool → Bool
  | some false => false
  | _ => true

/-- Fixed per-session context of the PRP block of `checkSession`:
project flags and the plans directory of the session workspace. -/
structure PrpStepCtx where
  prpEnabled : Bool
  gatePlan : Bool
  wbInvestigation : Option Bool
  wbPlan : Option Bool
  wbImplementation : Option Bool
  sessionId : String
  plansDir : Option (List (String × String))
  deriving Repr, DecidableEq

/-- State the PRP block reads and writes across polls: the persisted
`metadata.prpPhase`, the in-memory `prpPhases` entry for this session, the
gate comments and phase writeback comments posted so far, and the count of
`prp.plan_gate` notifications sent with priority `action`. -/
structure PlanGateState where
  metaPhase : Option String
  phaseMap : Option String
  gateComments : List String
  wbComments : List String
  actionNotifies : Nat
  deriving Repr, DecidableEq

/-- One poll through the PRP phase block of `checkSession` (lines 622–663 of
the lifecycle manager), for one session.  The metadata merge performed by
`updateMetadata` is reflected in `metaPhase`. -/
def prpPhaseCheck (ctx : PrpStepCtx) (st : PlanGateState) : PlanGateState :=
  match st.metaPhase with
  | none => st
  | some newPhase =>
    if newPhase = "" then st
    else if st.phaseMap = some newPhase then st
    else
      let st1 := { st with phaseMap := some newPhase }
      if ctx.prpEnabled then
        let phaseEnabled :=
          (newPhase = "investigating" && notFalse ctx.wbInvestigation) ||
          (newPhase = "planning" && notFalse ctx.wbPlan) ||
          (newPhase = "planning_complete" && notFalse ctx.wbPlan) ||
          (newPhase = "implementing" && notFalse ctx.wbImplementation)
        let st2 :=
          if phaseEnabled then
            match getPrpWritebackComment ctx.sessionId newPhase with
            | some c => { st1 with wbComments := st1.wbComments ++ [c] }
            | none => st1
          else st1
        if newPhase = "planning_complete" ∧ ctx.gatePlan then
          { st2 with
            gateComments := st2.gateComments ++
              [buildPlanGateComment ctx.sessionId ctx.plansDir],
            actionNotifies := st2.actionNotifies + 1,
            metaPhase := some "plan_gate" }
        else st2
      else st1

/-- States reachable from `s` by later polls of the same session, possibly
interleaved with orchestrator restarts.  A restart empties the in-memory
`prpPhases` map but keeps the persisted metadata; no other writer touches
`prpPhase` in between. -/
inductive GateReach (ctx : PrpStepCtx) : PlanGateState → PlanGateState → Prop
  | refl (s : PlanGateState) : GateReach ctx s s
  | poll {s t : PlanGateState} : GateReach ctx s t →
      GateReach ctx s (prpPhaseCheck ctx t)
  | restart {s t : PlanGateState} : GateReach ctx s t →
      GateReach ctx s { t with phaseMap := none }

/-! ## Webhook receiver — `route.ts` and `webhook-utils.ts` -/

/-- JS regex word character (`\w`): ASCII letters, digits, underscore. -/
def isWordChar (c : Char) : Bool :=
  (('a' ≤ c ∧ c ≤ 'z') ∨ ('A' ≤ c ∧ c ≤ 'Z') ∨ ('0' ≤ c ∧ c ≤ '9') ∨ c = '_')

/-- One alternative of the approval regex matches at the head of `l`, with
the character preceding `l` (if any) in `before`; both `\b` boundaries are
checked. -/
def kwMatchAt (kw : List Char) (before : Option Char) (l : List Char) : Bool :=
  kw.isPrefixOf l &&
  (match before with
   | none => true
   | some c => ¬ isWordChar c) &&
  (match l.drop kw.length with
   | [] => true
   | c :: _ => ¬ isWordChar c)

/-- The alternatives of `/\b(approved?|lgtm|proceed|go ahead)\b/`. -/
def approvalWords : List (List Char) :=
  ["approved".data, "approve".data, "lgtm".data, "proceed".data, "go ahead".data]

/-- Scan for a match of any alternative at any position. -/
def approvalScan (before : Option Char) : List Char → Bool
  | [] => false
  | c :: rest =>
    approvalWords.any (fun kw => kwMatchAt kw before (c :: rest)) ||
    approvalScan (some c) rest

/-- `APPROVAL_PATTERN.test(body)`: case-insensitive via lowering
(the alternatives are ASCII). -/
def testApproval (body : String) : Bool :=
  approvalScan none (body.data.map Char.toLower)

/-- One hex digit to its value, case-insensitive, or `none` when the
character is not a hex digit. -/
def hexDigit (c : Char) : Option Nat :=
  if '0' ≤ c ∧ c ≤ '9' then some (c.toNat - 48)
  else if 'a' ≤ c ∧ c ≤ 'f' then some (c.toNat - 87)
  else if 'A' ≤ c ∧ c ≤ 'F' then some (c.toNat - 55)
  else none

/-- Node `Buffer.from(s, "hex")`: decode two characters per byte and stop
at the first invalid or incomplete pair, truncating the buffer there. -/
def hexBytes : List Char → List Nat
  | c1 :: c2 :: rest =>
    match hexDigit c1, hexDigit c2 with
    | some h, some l => (h * 16 + l) :: hexBytes rest
    | _, _ => []
  | _ => []

/-- `timingSafeEqual(Buffer.from(a, "hex"), Buffer.from(b, "hex"))`:
compares the decoded bytes; `none` models the `RangeError` it throws when
the two buffers have different byte lengths (which happens for equal-length
strings when one contains non-hex characters). -/
def timingSafeEqualHex (a b : String) : Option Bool :=
  let ba := hexBytes a.data
  let bb := hexBytes b.data
  if ba.length = bb.length then some (ba = bb) else none

/-- `verifySignature` of `webhook-utils.ts`.  `hmacHex` is the expected
HMAC-SHA256 hex digest.  `some ok` is the boolean the function returns;
`none` models the uncaught `timingSafeEqual` throw, which the route does
not catch (Next.js surfaces it as an HTTP 500). -/
def verifySignature (hmacHex : String) (signature : Option String)
    (pre : String) : Option Bool :=
  match signature with
  | none => some false
  | some sig =>
    let actual := if pre ≠ "" then String.mk (replaceFirst pre sig.data) else sig
    if hmacHex.length = actual.length then timingSafeEqualHex hmacHex actual
    else some false

/-- `findSecret`: the first project whose `repo` matches decides; its
missing secret is not recovered from later projects. -/
def findSecret (repo : String) (config : OrchestratorConfig) : Option String :=
  (config.projects.find? (fun p => p.2.repo = repo)).bind (fun p => p.2.githubSecret)

/-- `payload.issue` as read by `normalizeGitHubEvent`. -/
structure GHIssue where
  number : Nat
  title : String
  state : String
  labels : List String
  assignees : List String
  htmlUrl : String
  deriving Repr, DecidableEq

/-- A parsed GitHub webhook payload.  Two-level `Option`s model an object
that may be absent whose relevant field may itself be absent. -/
structure GHPayload where
  action : Option String
  issue : Option GHIssue
  /-- `payload.comment` (object presence) and its `body`. -/
  comment : Option (Option String)
  /-- `payload.repository` (object presence) and its `full_name`. -/
  repository : Option (Option String)
  sender : Option String
  label : Option String
  assignee : Option String
  deriving Repr, DecidableEq

/-- `normalizeGitHubEvent`. -/
def normalizeGitHubEvent (eventType action deliveryId : String)
    (p : GHPayload) : Option TrackerEvent :=
  if eventType = "issue_comment" ∧ action = "created" then
    match p.issue, p.comment, p.repository with
    | some issue, some cbody, some fn =>
      some { provider := "github", deliveryId := deliveryId,
             event := "issue.comment", action := action,
             issueNumber := issue.number, issueId := toString issue.number,
             issueUrl := issue.htmlUrl, repo := fn.getD "",
             label := none, assignee := none,
             commentBody := some (cbody.getD "") }
    | _, _, _ => none
  else if eventType ≠ "issues" then none
  else
    match (if action = "labeled" then some "issue.labeled"
           else if action = "assigned" then some "issue.assigned"
           else if action = "opened" then some "issue.opened"
           else if action = "reopened" then some "issue.reopened"
           else none) with
    | none => none
    | some normalizedEvent =>
      match p.issue, p.repository with
      | some issue, some fn =>
        some { provider := "github", deliveryId := deliveryId,
               event := normalizedEvent, action := action,
               issueNumber := issue.number, issueId := toString issue.number,
               issueUrl := issue.htmlUrl, repo := fn.getD "",
               label := p.label, assignee := p.assignee,
               commentBody := none }
      | _, _ => none

/-- `(payload.repository)?.full_name` as read by `POST`. -/
def repoOf (p : GHPayload) : Option String :=
  match p.repository with
  | none => none
  | some fn => fn

/-- The HTTP response of the route (`NextResponse.json` defaults to 200). -/
structure WebhookResponse where
  status : Nat
  ok : Bool
  error : Option String
  skipped : Option String
  actionMsg : Option String
  sessionId : Option String
  deriving Repr, DecidableEq

/-- Side effects the route performs through the session manager, metadata
store and tracker. -/
structure WebhookEffects where
  sent : Option (String × String)
  metadataUpdated : Option (String × String × String)
  trackerComments : List (String × String)
  spawned : Option (String × String)
  deriving Repr, DecidableEq

def noEffects : WebhookEffects :=
  { sent := none, metadataUpdated := none, trackerComments := [], spawned := none }

/-- The gated-session predicate of `handleIssueComment`: issue match by full
URL or by `/number` suffix, plus `metadata.prpPhase == "plan_gate"`. -/
def isGatedFor (event : TrackerEvent) (s : Session) : Bool :=
  match s.issueId with
  | none => false
  | some iid =>
    (iid = event.issueUrl || strEndsWith iid ("/" ++ event.issueId)) &&
    getMeta s.metadata "prpPhase" = some "plan_gate"

def resumeMessage : String :=
  "Plan approved by human reviewer. Continue with implementation using /prp-ralph."

def approvedComment (sessionId : String) : String :=
  "✅ **Agent Orchestrator** plan approved. Session `" ++ sessionId ++ "` is resuming."

/-- `handleIssueComment`.  `sessions` models `sessionManager.list()`;
`trackerResolves` models `registry.get` returning a tracker with
`updateIssue`; `sendFails` models `sessionManager.send` throwing (the
handler catches it and reports `resume failed`). -/
def handleIssueComment (event : TrackerEvent) (config : OrchestratorConfig)
    (sessions : List Session) (trackerResolves sendFails : Bool) :
    WebhookResponse × WebhookEffects :=
  if ¬ truthyStr event.commentBody ∨
     ¬ testApproval (event.commentBody.getD "") then
    (⟨200, true, none, some "not an approval comment", none, none⟩, noEffects)
  else
    match sessions.find? (isGatedFor event) with
    | none =>
      (⟨200, true, none, some "no gated session for this issue", none, none⟩, noEffects)
    | some gated =>
      if sendFails then
        (⟨200, true, none, some "resume failed", none, none⟩, noEffects)
      else
        let projectOpt := lookupProject config gated.projectId
        let metaUpd := projectOpt.map (fun _ => (gated.id, "prpPhase", "implementing"))
        let comments :=
          match projectOpt with
          | some proj =>
            match proj.trackerPlugin with
            | some _ =>
              if trackerResolves then [(event.issueId, approvedComment gated.id)] else []
            | none => []
          | none => []
        (⟨200, true, none, none, some ("resumed session " ++ gated.id), none⟩,
         { sent := some (gated.id, resumeMessage), metadataUpdated := metaUpd,
           trackerComments := comments, spawned := none })

/-- The persisted effect of the resume path on the next
`sessionManager.list()`: the gated session's `prpPhase` becomes
`implementing`. -/
def resumeUpdate (sessions : List Session) (gid : String) : List Session :=
  sessions.map (fun s =>
    if s.id = gid then { s with metadata := setMeta s.metadata "prpPhase" "implementing" }
    else s)

/-- `POST` of `route.ts`.  `hmac secret body` stands for the HMAC-SHA256
hex digest; `parsed` is the `JSON.parse` result of `body` (`none` = throw);
`spawnResult` models `sessionManager.spawn` (`none` = throw).  A
`timingSafeEqual` throw inside `verifySignature` is not caught by the
route; Next.js turns it into an HTTP 500 with none of the route's effects,
modelled here as a 500 response.  Returns the response, the side effects,
and the updated delivery-dedup map. -/
def POST (hmac : String → String → String) (config : OrchestratorConfig)
    (allSessions : List Session) (sessionsOf : String → List Session)
    (dedup : List (String × Nat)) (now : Nat)
    (body : String) (parsed : Option GHPayload)
    (eventType deliveryId : String) (signature : Option String)
    (trackerResolves sendFails : Bool) (spawnResult : Option Session) :
    WebhookResponse × WebhookEffects × List (String × Nat) :=
  match parsed with
  | none => (⟨400, false, some "Invalid JSON", none, none, none⟩, noEffects, dedup)
  | some payload =>
    match repoOf payload with
    | none => (⟨200, true, none, some "no repository", none, none⟩, noEffects, dedup)
    | some repo =>
      if repo = "" then
        (⟨200, true, none, some "no repository", none, none⟩, noEffects, dedup)
      else
        match findSecret repo config with
        | none =>
          (⟨200, true, none, some "no project config for repo", none, none⟩, noEffects, dedup)
        | some secret =>
          if secret = "" then
            (⟨200, true, none, some "no project config for repo", none, none⟩, noEffects, dedup)
          else
          match verifySignature (hmac secret body) signature "sha256=" with
          | none =>
            (⟨500, false, some "Internal Server Error", none, none, none⟩, noEffects, dedup)
          | some ok =>
          if ¬ ok then
            (⟨401, false, some "Invalid signature", none, none, none⟩, noEffects, dedup)
          else
            match normalizeGitHubEvent eventType (payload.action.getD "") deliveryId payload with
            | none =>
              (⟨200, true, none, some "not an actionable event", none, none⟩, noEffects, dedup)
            | some ev =>
              if ev.event = "issue.comment" then
                let r := handleIssueComment ev config allSessions trackerResolves sendFails
                (r.1, r.2, dedup)
              else
                let r := evaluateTriggers now ev config sessionsOf dedup
                match r.1 with
                | none =>
                  (⟨200, true, none, some "no trigger matched", none, none⟩, noEffects, r.2)
                | some decision =>
                  match spawnResult with
                  | none =>
                    (⟨200, true, some "spawn failed", none, none, none⟩, noEffects, r.2)
                  | some sess =>
                    let comments :=
                      match lookupProject config decision.projectId with
                      | some proj =>
                        match proj.trackerPlugin with
                        | some _ =>
                          if trackerResolves then
                            [(decision.issueId,
                              "🤖 **Agent Orchestrator** spawned session `" ++ sess.id ++
                              "` for this issue.\n\nBranch: `" ++
                              (sess.branch.getD "unknown") ++ "`")]
                          else []
                        | none => []
                      | none => []
                    (⟨200, true, none, none, none, some sess.id⟩,
                     { sent := none, metadataUpdated := none,
                       trackerComments := comments,
                       spawned := some (decision.projectId, decision.issueId) }, r.2)

/-! ## Sample data used by witnesses and counterexamples -/

/-- A normalized `issues/opened` event for issue 42 of `org/app`. -/
def sampleEvent : TrackerEvent :=
  { provider := "github", deliveryId := "d1", event := "issue.opened",
    action := "opened", issueNumber := 42, issueId := "42",
    issueUrl := "https://github.com/org/app/issues/42", repo := "org/app",
    label := none, assignee := none, commentBody := none }

def sampleProject : ProjectConfig :=
  { repo := "org/app", path := "/tmp/app", githubSecret := some "sec",
    planeWorkspaceId := none, triggers := [⟨"issue.opened", none, none⟩],
    trackerPlugin := some "github", prp := none }

def sampleConfig : OrchestratorConfig := ⟨[("app", sampleProject)]⟩

/-- A non-terminal session already working on issue 42. -/
def activeSession : Session :=
  { id := "app-1", projectId := "app", status := "working",
    issueId := some "https://github.com/org/app/issues/42",
    metadata := [], branch := none }

/-! ## C2 — duplicate-session guard -/

/-- C2: if the event matched a project and some listed session of that
project has an `issueId` containing the event's issue number as a substring
and a status outside {killed, terminated, done, cleanup, errored, merged},
then `evaluateTriggers` returns no spawn decision, enforcing at most one
active session per `(projectId, issueId)`. -/
theorem evaluateTriggers_duplicate_session_guard
    (now : Nat) (event : TrackerEvent) (config : OrchestratorConfig)
    (sessionsOf : String → List Session) (dedup : List (String × Nat))
    (pid : String) (hpid : findProject event config = some pid)
    (hactive : ∃ s ∈ sessionsOf pid,
      (∃ iid, s.issueId = some iid ∧
        strIncludes iid (toString event.issueNumber) = true) ∧
      s.status ∉ terminalStatuses) :
    (evaluateTriggers now event config sessionsOf dedup).1 = none := by
  unfold evaluateTriggers
  dsimp only
  split
  · rfl
  · unfold evaluateDecision
    cases hlook : lookupProject config pid with
    | none => simp [hpid, hlook]
    | some project =>
      cases hfind : project.triggers.find? (fun rule => ruleMatches rule event) with
      | none => simp [hpid, hlook, hfind]
      | some r =>
        have hany : (sessionsOf pid).any
            (isActiveFor (toString event.issueNumber)) = true := by
          rw [List.any_eq_true]
          obtain ⟨s, hs, ⟨iid, hiid, hinc⟩, hstat⟩ := hactive
          refine ⟨s, hs, ?_⟩
          unfold isActiveFor
          rw [hiid]
          simp only [hinc, Bool.true_and, decide_eq_true_eq]
          intro hc
          exact hstat (by simpa using hc)
        simp [hpid, hlook, hfind, hany]

/-- Witness for C2 at a concrete event, config and session list. -/
theorem evaluateTriggers_duplicate_session_guard_witness :
    findProject sampleEvent sampleConfig = some "app" ∧
    (evaluateTriggers 0 sampleEvent sampleConfig (fun _ => [activeSession]) []).1 = none := by
  refine ⟨by decide, evaluateTriggers_duplicate_session_guard 0 sampleEvent sampleConfig
    (fun _ => [activeSession]) [] "app" (by decide) ?_⟩
  exact ⟨activeSession, by simp,
    ⟨"https://github.com/org/app/issues/42", rfl, by decide⟩, by decide⟩

/-! ## C3 — delivery dedup

The dedup TTL is measured from the timestamp stored at the delivery id's
first non-duplicate sighting and is never refreshed by later duplicate
sightings, so two calls 1 ms apart can straddle the window when an earlier
call recorded the id. -/

/-- C3 counterexample: three calls with the same `deliveryId` at t=0,
t=600000 and t=600001.  The second call (t=600000) is rejected as a
duplicate, yet the third call — only 1 ms after the second — produces a
spawn decision, because the stored timestamp is the first call's and just
expired. -/
theorem dedup_window_not_refreshed_counterexample :
    (evaluateTriggers 600000 sampleEvent sampleConfig (fun _ => [])
      (evaluateTriggers 0 sampleEvent sampleConfig (fun _ => []) []).2).1 = none ∧
    (evaluateTriggers 600001 sampleEvent sampleConfig (fun _ => [])
      (evaluateTriggers 600000 sampleEvent sampleConfig (fun _ => [])
        (evaluateTriggers 0 sampleEvent sampleConfig (fun _ => []) []).2).2).1 ≠ none ∧
    600001 - 600000 ≤ DELIVERY_TTL_MS := by decide

/-- C3 as amended: if the first call found the `deliveryId` absent from the
dedup map (so the call records it), then every call with the same
`deliveryId` within `DELIVERY_TTL_MS` of the *first recording* returns no
decision; and a `deliveryId` all of whose recorded sightings are older than
the TTL is treated as new. -/
theorem dedup_ttl_from_first_recording
    (t1 t2 : Nat) (ev1 ev2 : TrackerEvent)
    (cfg1 cfg2 : OrchestratorConfig) (so1 so2 : String → List Session)
    (d : List (String × Nat))
    (hsame : ev2.deliveryId = ev1.deliveryId)
    (hfresh : d.all (fun p => p.1 ≠ ev1.deliveryId) = true)
    (httl : t2 - t1 ≤ DELIVERY_TTL_MS) :
    (evaluateTriggers t2 ev2 cfg2 so2
      (evaluateTriggers t1 ev1 cfg1 so1 d).2).1 = none ∧
    ∀ (now : Nat) (idStr : String) (m : List (String × Nat)),
      (∀ p ∈ m, p.1 = idStr → DELIVERY_TTL_MS < now - p.2) →
      (isDuplicate now idStr m).1 = false := by
  constructor
  · have hstate : (evaluateTriggers t1 ev1 cfg1 so1 d).2 =
        (ev1.deliveryId, t1) :: pruneDeliveries t1 d := by
      have hany : (pruneDeliveries t1 d).any
          (fun p => p.1 = ev1.deliveryId) = false := by
        rw [List.any_eq_false]
        intro p hp
        have hpd : p ∈ d := List.mem_of_mem_filter hp
        have h1 := List.all_eq_true.mp hfresh p hpd
        simp only [decide_eq_true_eq] at h1 ⊢
        exact h1
      simp [evaluateTriggers, isDuplicate, hany]
    rw [hstate]
    have hdup : (isDuplicate t2 ev2.deliveryId
        ((ev1.deliveryId, t1) :: pruneDeliveries t1 d)).1 = true := by
      have hkeep : (ev1.deliveryId, t1) ∈ pruneDeliveries t2
          ((ev1.deliveryId, t1) :: pruneDeliveries t1 d) := by
        apply List.mem_filter.mpr
        refine ⟨List.mem_cons_self _ _, ?_⟩
        simp only [decide_eq_true_eq]
        omega
      have hany : (pruneDeliveries t2
          ((ev1.deliveryId, t1) :: pruneDeliveries t1 d)).any
          (fun p => p.1 = ev2.deliveryId) = true :=
        List.any_eq_true.mpr ⟨(ev1.deliveryId, t1), hkeep, by simp [hsame]⟩
      simp [isDuplicate, hany]
    simp [evaluateTriggers, hdup]
  · intro now idStr m hold
    have hany : (pruneDeliveries now m).any (fun p => p.1 = idStr) = false := by
      rw [List.any_eq_false]
      intro p hp
      have h1 : p ∈ m := List.mem_of_mem_filter hp
      have h2 := (List.mem_filter.mp hp).2
      simp only [decide_eq_true_eq] at h2 ⊢
      intro hpe
      exact h2 (hold p h1 hpe)
    simp [isDuplicate, hany]

/-- Witness for the amended C3 at concrete calls. -/
theorem dedup_ttl_from_first_recording_witness :
    ((evaluateTriggers 600000 sampleEvent sampleConfig (fun _ => [])
        (evaluateTriggers 0 sampleEvent sampleConfig (fun _ => []) []).2).1 = none ∧
      ∀ (now : Nat) (idStr : String) (m : List (String × Nat)),
        (∀ p ∈ m, p.1 = idStr → DELIVERY_TTL_MS < now - p.2) →
        (isDuplicate now idStr m).1 = false) :=
  dedup_ttl_from_first_recording 0 600000 sampleEvent sampleEvent
    sampleConfig sampleConfig (fun _ => []) (fun _ => []) []
    rfl (by decide) (by decide)

/-! ## C8 — trigger rule matching -/

/-- A rule whose `label` filter sits on a non-`issue.labeled` event kind. -/
def labelFilterRule : TriggerRule := ⟨"issue.opened", some "agent-work", none⟩

/-- C8 counterexample: an `issue.opened` rule with a `label` filter matches
an `issue.opened` event with no label at all — the filter is ignored
because the source only honours `label` on `issue.labeled` rules. -/
theorem ruleMatches_ignores_offkind_filter_counterexample :
    ruleMatches labelFilterRule sampleEvent = true ∧
    ruleMatchesSpec labelFilterRule sampleEvent = false ∧
    labelFilterRule.label = some "agent-work" ∧
    sampleEvent.label = none := by decide

/-- C8 as amended: a rule matches iff its `on` equals the event kind and,
only when the rule is `issue.labeled` with a truthy label filter, the
event's label equals it, and only when the rule is `issue.assigned` with a
truthy assignee filter, the event's assignee equals it; among a project's
rules the first match in declared order is the one returned. -/
theorem ruleMatches_semantics (rule : TriggerRule) (event : TrackerEvent) :
    (ruleMatches rule event = true ↔
      rule.ruleOn = event.event ∧
      (rule.ruleOn = "issue.labeled" → truthyStr rule.label = true →
        event.label = rule.label) ∧
      (rule.ruleOn = "issue.assigned" → truthyStr rule.assignee = true →
        event.assignee = rule.assignee)) ∧
    ∀ (now : Nat) (config : OrchestratorConfig)
      (sessionsOf : String → List Session) (dedup : List (String × Nat))
      (d : SpawnDecision),
      (evaluateTriggers now event config sessionsOf dedup).1 = some d →
      ∃ pid project, findProject event config = some pid ∧
        lookupProject config pid = some project ∧
        project.triggers.find? (fun r => ruleMatches r event) = some d.matchedRule := by
  constructor
  · by_cases h1 : rule.ruleOn = event.event
    · by_cases h2 : rule.ruleOn = "issue.labeled" ∧ truthyStr rule.label = true
      · rw [ruleMatches, if_neg (by simp [h1]), if_pos (by exact_mod_cast h2)]
        simp only [decide_eq_true_eq]
        constructor
        · intro hl
          exact ⟨h1, fun _ _ => hl,
            fun ha _ => absurd (h2.1.symm.trans ha) (by decide)⟩
        · rintro ⟨_, f1, _⟩
          exact f1 h2.1 h2.2
      · by_cases h3 : rule.ruleOn = "issue.assigned" ∧ truthyStr rule.assignee = true
        · rw [ruleMatches, if_neg (by simp [h1]),
            if_neg (by exact_mod_cast h2), if_pos (by exact_mod_cast h3)]
          simp only [decide_eq_true_eq]
          constructor
          · intro hl
            exact ⟨h1, fun ha _ => absurd (h3.1.symm.trans ha) (by decide),
              fun _ _ => hl⟩
          · rintro ⟨_, _, f2⟩
            exact f2 h3.1 h3.2
        · rw [ruleMatches, if_neg (by simp [h1]),
            if_neg (by exact_mod_cast h2), if_neg (by exact_mod_cast h3)]
          simp only [true_iff]
          exact ⟨h1, fun ha hb => absurd ⟨ha, hb⟩ h2, fun ha hb => absurd ⟨ha, hb⟩ h3⟩
    · rw [ruleMatches, if_pos h1]
      simp only [Bool.false_eq_true, false_iff, not_and]
      intro he
      exact absurd he h1
  · intro now config sessionsOf dedup d h
    unfold evaluateTriggers at h
    dsimp only at h
    split at h
    · simp at h
    · unfold evaluateDecision at h
      cases hfp : findProject event config with
      | none => simp [hfp] at h
      | some pid =>
        cases hlp : lookupProject config pid with
        | none => simp [hfp, hlp] at h
        | some project =>
          cases hfr : project.triggers.find? (fun rule => ruleMatches rule event) with
          | none => simp [hfp, hlp, hfr] at h
          | some mr =>
            simp only [hfp, hlp, hfr] at h
            split at h
            · simp at h
            · cases h
              exact ⟨pid, project, rfl, hlp, hfr⟩

/-- Witness for C8: a concrete evaluation whose decision carries the first
matching rule. -/
theorem ruleMatches_semantics_witness :
    (evaluateTriggers 0 sampleEvent sampleConfig (fun _ => []) []).1 =
      some ⟨"app", "42", ⟨"issue.opened", none, none⟩⟩ ∧
    (∃ pid project, findProject sampleEvent sampleConfig = some pid ∧
      lookupProject sampleConfig pid = some project ∧
      project.triggers.find? (fun r => ruleMatches r sampleEvent) =
        some (⟨"app", "42", ⟨"issue.opened", none, none⟩⟩ : SpawnDecision).matchedRule) :=
  ⟨by decide, (ruleMatches_semantics ⟨"issue.opened", none, none⟩ sampleEvent).2
    0 sampleConfig (fun _ => []) [] _ (by decide)⟩

/-! ## C4, C5 — Reaction Engine -/

/-- Every branch of `executeReaction` returns the incremented tracker. -/
theorem executeReaction_tracker_eq (now : Nat) (cfg : ReactionConfig)
    (prev : Option ReactionTracker) (sendFails : Bool) :
    (executeReaction now cfg prev sendFails).tracker =
      ⟨(prev.getD ⟨0, now⟩).attempts + 1, (prev.getD ⟨0, now⟩).firstTriggered⟩ := by
  unfold executeReaction
  dsimp only
  repeat' split
  all_goals rfl

/-- `escalated` is exactly the `shouldEscalate` decision. -/
theorem executeReaction_escalated_eq (now : Nat) (cfg : ReactionConfig)
    (prev : Option ReactionTracker) (sendFails : Bool) :
    (executeReaction now cfg prev sendFails).escalated =
      shouldEscalate cfg
        ⟨(prev.getD ⟨0, now⟩).attempts + 1, (prev.getD ⟨0, now⟩).firstTriggered⟩ now := by
  unfold executeReaction
  dsimp only
  repeat' split
  all_goals simp_all [Bool.not_eq_true]

/-- `shouldEscalate` characterized: retries exceeded, or a *positive*
parsed duration exceeded, or a numeric attempt bound exceeded. -/
theorem shouldEscalate_iff (cfg : ReactionConfig) (tr : ReactionTracker) (now : Nat) :
    shouldEscalate cfg tr now = true ↔
      (∃ r, cfg.retries = some r ∧ r < tr.attempts) ∨
      (∃ s, cfg.escalateAfter = some (.dur s) ∧ 0 < parseDuration s ∧
        parseDuration s < now - tr.firstTriggered) ∨
      (∃ n, cfg.escalateAfter = some (.num n) ∧ n < tr.attempts) := by
  unfold shouldEscalate
  rcases hr : cfg.retries with _ | r <;>
    rcases he : cfg.escalateAfter with _ | n | s <;>
      simp [hr, he, and_assoc]

/-- C4 amended: each invocation of `executeReaction` advances the tracked
`attempts` by exactly one (keeping `firstTriggered`), and it escalates iff
`attempts > retries`, or `escalateAfter` is a duration string with a
*positive* parsed duration smaller than the elapsed time since
`firstTriggered`, or `escalateAfter` is numeric and `attempts` exceeds it. -/
theorem executeReaction_attempts_and_escalation (now : Nat) (cfg : ReactionConfig)
    (prev : Option ReactionTracker) (sendFails : Bool) :
    (executeReaction now cfg prev sendFails).tracker.attempts =
      (prev.getD ⟨0, now⟩).attempts + 1 ∧
    (executeReaction now cfg prev sendFails).tracker.firstTriggered =
      (prev.getD ⟨0, now⟩).firstTriggered ∧
    ((executeReaction now cfg prev sendFails).escalated = true ↔
      (∃ r, cfg.retries = some r ∧ r < (prev.getD ⟨0, now⟩).attempts + 1) ∨
      (∃ s, cfg.escalateAfter = some (.dur s) ∧ 0 < parseDuration s ∧
        parseDuration s < now - (prev.getD ⟨0, now⟩).firstTriggered) ∨
      (∃ n, cfg.escalateAfter = some (.num n) ∧
        n < (prev.getD ⟨0, now⟩).attempts + 1)) := by
  refine ⟨by rw [executeReaction_tracker_eq], by rw [executeReaction_tracker_eq], ?_⟩
  rw [executeReaction_escalated_eq, shouldEscalate_iff]

/-- A reaction whose `escalateAfter` duration parses to zero. -/
def zeroDurationReaction : ReactionConfig :=
  { auto := none, action := some "notify", message := none, priority := none,
    retries := some 5, escalateAfter := some (.dur "0s") }

/-- C4 counterexample: with `escalateAfter = "0s"` (parsed duration 0) and
elapsed time 5 ms the claimed escalation condition holds (elapsed exceeds
the parsed duration) yet the code does not escalate, because the source
additionally requires `durationMs > 0`. -/
theorem executeReaction_claimed_escalation_counterexample :
    ¬ ((executeReaction 5 zeroDurationReaction (some ⟨1, 0⟩) false).escalated = true ↔
      escalationClaimC4 zeroDurationReaction
        (executeReaction 5 zeroDurationReaction (some ⟨1, 0⟩) false).tracker.attempts
        (5 - (executeReaction 5 zeroDurationReaction
          (some ⟨1, 0⟩) false).tracker.firstTriggered) = true) := by
  decide

theorem parseDuration_30m : parseDuration "30m" = 1800000 := by decide

/-- Within the 30-minute window the `ci-failed` reaction escalates exactly
on the retries bound. -/
theorem ciFailed_shouldEscalate (a t first : Nat) (h : t - first ≤ 1800000) :
    shouldEscalate ciFailedReaction ⟨a, first⟩ t = decide (2 < a) := by
  unfold shouldEscalate ciFailedReaction
  dsimp only
  rw [parseDuration_30m]
  have h2 : ¬ (1800000 < t - first) := by omega
  simp [h2]

/-- A non-escalating `send-to-agent` invocation with a working send. -/
theorem executeReaction_send_ok (now : Nat) (cfg : ReactionConfig)
    (prev : Option ReactionTracker)
    (hact : cfg.action = some "send-to-agent")
    (hmsg : truthyStr cfg.message = true)
    (hesc : shouldEscalate cfg
      ⟨(prev.getD ⟨0, now⟩).attempts + 1, (prev.getD ⟨0, now⟩).firstTriggered⟩
      now = false) :
    executeReaction now cfg prev false =
      { tracker := ⟨(prev.getD ⟨0, now⟩).attempts + 1,
          (prev.getD ⟨0, now⟩).firstTriggered⟩,
        escalated := false, actionTaken := "send-to-agent",
        sentMessage := cfg.message, notifyPriority := none,
        emittedEvent := none, success := true } := by
  simp only [executeReaction, hact, hesc, Option.getD_some, hmsg]
  rfl

/-- An escalating invocation. -/
theorem executeReaction_escalates (now : Nat) (cfg : ReactionConfig)
    (prev : Option ReactionTracker) (sendFails : Bool)
    (hesc : shouldEscalate cfg
      ⟨(prev.getD ⟨0, now⟩).attempts + 1, (prev.getD ⟨0, now⟩).firstTriggered⟩
      now = true) :
    executeReaction now cfg prev sendFails =
      { tracker := ⟨(prev.getD ⟨0, now⟩).attempts + 1,
          (prev.getD ⟨0, now⟩).firstTriggered⟩,
        escalated := true, actionTaken := "escalated",
        sentMessage := none, notifyPriority := some (cfg.priority.getD "urgent"),
        emittedEvent := some "reaction.escalated", success := true } := by
  simp only [executeReaction, hesc]
  rfl

/-- C5 amended: three consecutive `ci_failed`-triggered invocations within
30 minutes: the first two deliver the configured message to the agent, the
third emits `reaction.escalated` and notifies with the *configured*
priority `warning` (the source uses `priority ?? "urgent"`, so `urgent`
would apply only with no configured priority). -/
theorem ciFailed_two_sends_then_escalate (t0 t1 t2 : Nat)
    (h01 : t0 ≤ t1) (h12 : t1 ≤ t2) (hin : t2 - t0 ≤ 1800000) :
    (executeReaction t0 ciFailedReaction none false).sentMessage =
      some "CI failed — please fix" ∧
    (executeReaction t0 ciFailedReaction none false).escalated = false ∧
    (executeReaction t1 ciFailedReaction
      (some (executeReaction t0 ciFailedReaction none false).tracker)
      false).sentMessage = some "CI failed — please fix" ∧
    (executeReaction t1 ciFailedReaction
      (some (executeReaction t0 ciFailedReaction none false).tracker)
      false).escalated = false ∧
    (executeReaction t2 ciFailedReaction
      (some (executeReaction t1 ciFailedReaction
        (some (executeReaction t0 ciFailedReaction none false).tracker)
        false).tracker) false).escalated = true ∧
    (executeReaction t2 ciFailedReaction
      (some (executeReaction t1 ciFailedReaction
        (some (executeReaction t0 ciFailedReaction none false).tracker)
        false).tracker) false).emittedEvent = some "reaction.escalated" ∧
    (executeReaction t2 ciFailedReaction
      (some (executeReaction t1 ciFailedReaction
        (some (executeReaction t0 ciFailedReaction none false).tracker)
        false).tracker) false).notifyPriority = some "warning" := by
  have hr1 : executeReaction t0 ciFailedReaction none false =
      { tracker := ⟨1, t0⟩, escalated := false, actionTaken := "send-to-agent",
        sentMessage := some "CI failed — please fix", notifyPriority := none,
        emittedEvent := none, success := true } := by
    have hesc : shouldEscalate ciFailedReaction ⟨1, t0⟩ t0 = false := by
      rw [ciFailed_shouldEscalate 1 t0 t0 (by omega)]; rfl
    exact executeReaction_send_ok t0 ciFailedReaction none rfl (by decide) hesc
  have hr2 : executeReaction t1 ciFailedReaction (some (⟨1, t0⟩ : ReactionTracker)) false =
      { tracker := ⟨2, t0⟩, escalated := false, actionTaken := "send-to-agent",
        sentMessage := some "CI failed — please fix", notifyPriority := none,
        emittedEvent := none, success := true } := by
    have hesc : shouldEscalate ciFailedReaction ⟨2, t0⟩ t1 = false := by
      rw [ciFailed_shouldEscalate 2 t1 t0 (by omega)]; rfl
    exact executeReaction_send_ok t1 ciFailedReaction (some ⟨1, t0⟩) rfl (by decide) hesc
  have hr3 : executeReaction t2 ciFailedReaction (some (⟨2, t0⟩ : ReactionTracker)) false =
      { tracker := ⟨3, t0⟩, escalated := true, actionTaken := "escalated",
        sentMessage := none, notifyPriority := some "warning",
        emittedEvent := some "reaction.escalated", success := true } := by
    have hesc : shouldEscalate ciFailedReaction ⟨3, t0⟩ t2 = true := by
      rw [ciFailed_shouldEscalate 3 t2 t0 (by omega)]; rfl
    exact executeReaction_escalates t2 ciFailedReaction (some ⟨2, t0⟩) false hesc
  rw [hr1]
  dsimp only
  rw [hr2]
  dsimp only
  rw [hr3]
  exact ⟨rfl, rfl, rfl, rfl, rfl, rfl, rfl⟩

/-- Witness for the amended C5 at ticks 0 ms, 60 s, 120 s. -/
theorem ciFailed_two_sends_then_escalate_witness :
    (executeReaction 0 ciFailedReaction none false).sentMessage =
      some "CI failed — please fix" ∧
    (executeReaction 0 ciFailedReaction none false).escalated = false ∧
    (executeReaction 60000 ciFailedReaction
      (some (executeReaction 0 ciFailedReaction none false).tracker)
      false).sentMessage = some "CI failed — please fix" ∧
    (executeReaction 60000 ciFailedReaction
      (some (executeReaction 0 ciFailedReaction none false).tracker)
      false).escalated = false ∧
    (executeReaction 120000 ciFailedReaction
      (some (executeReaction 60000 ciFailedReaction
        (some (executeReaction 0 ciFailedReaction none false).tracker)
        false).tracker) false).escalated = true ∧
    (executeReaction 120000 ciFailedReaction
      (some (executeReaction 60000 ciFailedReaction
        (some (executeReaction 0 ciFailedReaction none false).tracker)
        false).tracker) false).emittedEvent = some "reaction.escalated" ∧
    (executeReaction 120000 ciFailedReaction
      (some (executeReaction 60000 ciFailedReaction
        (some (executeReaction 0 ciFailedReaction none false).tracker)
        false).tracker) false).notifyPriority = some "warning" :=
  ciFailed_two_sends_then_escalate 0 60000 120000
    (by omega) (by omega) (by omega)

/-- C5 counterexample: the third tick escalates and notifies with priority
`warning` (the configured one), not `urgent` as claimed. -/
theorem ciFailed_escalation_priority_counterexample :
    (executeReaction 120000 ciFailedReaction
      (some (executeReaction 60000 ciFailedReaction
        (some (executeReaction 0 ciFailedReaction none false).tracker)
        false).tracker) false).escalated = true ∧
    (executeReaction 120000 ciFailedReaction
      (some (executeReaction 60000 ciFailedReaction
        (some (executeReaction 0 ciFailedReaction none false).tracker)
        false).tracker) false).notifyPriority ≠ some "urgent" := by
  decide

/-! ## C9 — PR-probe → status mapping in `determineStatus` -/

/-- All SCM probes succeed and report a closed PR; liveness probes pass. -/
def closedPrProbes : ProbeEnv :=
  { runtimeAliveResult := some true, getOutputFails := false, terminalOutput := "",
    activity := "active", isProcessRunningFails := false, processRunning := true,
    prStateResult := some .closed, ciStatusResult := some .passing,
    reviewDecisionResult := some "pending", mergeableResult := some true }

/-- C9 counterexample: a closed PR maps to session status `killed`, not to a
status of the same name (`closed` is not even a session status). -/
theorem determineStatus_closed_not_same_name_counterexample :
    determineStatus true true true none "working" true closedPrProbes = "killed" ∧
    determineStatus true true true none "working" true closedPrProbes ≠ "closed" := by
  decide

/-- With no runtime handle, `determineStatus` reduces to the SCM cascade
plus the step-4 default. -/
theorem determineStatus_no_handle (hrp ha : Bool) (st : String) (env : ProbeEnv) :
    determineStatus hrp ha true none st true env =
      (match scmStatus env with
       | some s => s
       | none =>
         if st = "spawning" ∨ st = "stuck" ∨ st = "needs_input"
         then "working" else st) := by
  unfold determineStatus
  simp

/-- C9 amended: when a session has a PR and the SCM probes succeed (the
liveness probes falling through), the probed outcomes map as
merged → merged, closed → killed, failing CI → ci_failed,
changes_requested → changes_requested, approved and mergeable → mergeable,
approved and not mergeable → approved, pending → review_pending, and any
other review decision → pr_open. -/
theorem determineStatus_scm_mapping (hrp ha : Bool) (st : String) (env : ProbeEnv)
    (ps : PRState) (ci : CIStatus) (rd : String) (m : Bool)
    (hps : env.prStateResult = some ps) (hci : env.ciStatusResult = some ci)
    (hrd : env.reviewDecisionResult = some rd) (hm : env.mergeableResult = some m) :
    (ps = .merged → determineStatus hrp ha true none st true env = "merged") ∧
    (ps = .closed → determineStatus hrp ha true none st true env = "killed") ∧
    (ps = .openPR → ci = .failing →
      determineStatus hrp ha true none st true env = "ci_failed") ∧
    (ps = .openPR → ci ≠ .failing → rd = "changes_requested" →
      determineStatus hrp ha true none st true env = "changes_requested") ∧
    (ps = .openPR → ci ≠ .failing → rd = "approved" → m = true →
      determineStatus hrp ha true none st true env = "mergeable") ∧
    (ps = .openPR → ci ≠ .failing → rd = "approved" → m = false →
      determineStatus hrp ha true none st true env = "approved") ∧
    (ps = .openPR → ci ≠ .failing → rd = "pending" →
      determineStatus hrp ha true none st true env = "review_pending") ∧
    (ps = .openPR → ci ≠ .failing → rd ≠ "changes_requested" → rd ≠ "approved" →
      rd ≠ "pending" → determineStatus hrp ha true none st true env = "pr_open") := by
  rw [determineStatus_no_handle]
  refine ⟨?_, ?_, ?_, ?_, ?_, ?_, ?_, ?_⟩
  · rintro rfl
    simp [scmStatus, hps]
  · rintro rfl
    simp [scmStatus, hps]
  · rintro rfl rfl
    simp [scmStatus, hps, hci]
  · rintro rfl hcine rfl
    have hcif : (ci = CIStatus.failing) = False := by simp [hcine]
    simp [scmStatus, hps, hci, hcif, hrd]
  · rintro rfl hcine rfl rfl
    have hcif : (ci = CIStatus.failing) = False := by simp [hcine]
    simp [scmStatus, hps, hci, hcif, hrd, hm]
  · rintro rfl hcine rfl rfl
    have hcif : (ci = CIStatus.failing) = False := by simp [hcine]
    simp [scmStatus, hps, hci, hcif, hrd, hm]
  · rintro rfl hcine rfl
    have hcif : (ci = CIStatus.failing) = False := by simp [hcine]
    simp [scmStatus, hps, hci, hcif, hrd]
  · rintro rfl hcine h1 h2 h3
    have hcif : (ci = CIStatus.failing) = False := by simp [hcine]
    simp [scmStatus, hps, hci, hcif, hrd, h1, h2, h3]

/-- Witness for the amended C9 at a concrete probe environment. -/
theorem determineStatus_scm_mapping_witness :
    closedPrProbes.prStateResult = some .closed ∧
    ((PRState.closed = .merged →
      determineStatus true true true none "working" true closedPrProbes = "merged") ∧
    (PRState.closed = .closed →
      determineStatus true true true none "working" true closedPrProbes = "killed") ∧
    (PRState.closed = .openPR → CIStatus.passing = .failing →
      determineStatus true true true none "working" true closedPrProbes = "ci_failed") ∧
    (PRState.closed = .openPR → CIStatus.passing ≠ .failing →
      "pending" = "changes_requested" →
      determineStatus true true true none "working" true closedPrProbes =
        "changes_requested") ∧
    (PRState.closed = .openPR → CIStatus.passing ≠ .failing → "pending" = "approved" →
      true = true →
      determineStatus true true true none "working" true closedPrProbes = "mergeable") ∧
    (PRState.closed = .openPR → CIStatus.passing ≠ .failing → "pending" = "approved" →
      true = false →
      determineStatus true true true none "working" true closedPrProbes = "approved") ∧
    (PRState.closed = .openPR → CIStatus.passing ≠ .failing → "pending" = "pending" →
      determineStatus true true true none "working" true closedPrProbes =
        "review_pending") ∧
    (PRState.closed = .openPR → CIStatus.passing ≠ .failing →
      "pending" ≠ "changes_requested" → "pending" ≠ "approved" → "pending" ≠ "pending" →
      determineStatus true true true none "working" true closedPrProbes = "pr_open")) :=
  ⟨rfl, determineStatus_scm_mapping true true "working" closedPrProbes
    .closed .passing "pending" true rfl rfl rfl rfl⟩

/-! ## C1 — plan gate fires exactly once -/

/-- Once `prpPhase` is persisted as `plan_gate`, one more poll neither
changes `metaPhase` nor posts another gate comment or `action`
notification. -/
theorem prpPhaseCheck_plan_gate_stable (ctx : PrpStepCtx) (st : PlanGateState)
    (h : st.metaPhase = some "plan_gate") :
    (prpPhaseCheck ctx st).metaPhase = some "plan_gate" ∧
    (prpPhaseCheck ctx st).gateComments = st.gateComments ∧
    (prpPhaseCheck ctx st).actionNotifies = st.actionNotifies := by
  unfold prpPhaseCheck
  rw [h]
  by_cases hm : st.phaseMap = some "plan_gate"
  · simp [hm, h]
  · by_cases hen : ctx.prpEnabled = true
    · simp [hm, hen, getPrpWritebackComment, h]
    · simp [hm, hen, h]

/-- Any sequence of later polls and restarts keeps `plan_gate` persisted
and posts no further gate comment or notification. -/
theorem gateReach_plan_gate_stable (ctx : PrpStepCtx) {s t : PlanGateState}
    (hreach : GateReach ctx s t) (h : s.metaPhase = some "plan_gate") :
    t.metaPhase = some "plan_gate" ∧ t.gateComments = s.gateComments ∧
    t.actionNotifies = s.actionNotifies := by
  induction hreach with
  | refl => exact ⟨h, rfl, rfl⟩
  | poll hr ih =>
    obtain ⟨h1, h2, h3⟩ := ih
    obtain ⟨g1, g2, g3⟩ := prpPhaseCheck_plan_gate_stable ctx _ h1
    exact ⟨g1, g2.trans h2, g3.trans h3⟩
  | restart hr ih => exact ih

/-- The firing poll: sees `planning_complete`, posts the gate comment built
from the workspace plans, notifies once with priority `action`, and
persists `prpPhase := plan_gate`. -/
theorem prpPhaseCheck_fires_gate (ctx : PrpStepCtx) (st : PlanGateState)
    (hmeta : st.metaPhase = some "planning_complete")
    (hmap : st.phaseMap ≠ some "planning_complete")
    (hen : ctx.prpEnabled = true) (hgate : ctx.gatePlan = true) :
    (prpPhaseCheck ctx st).gateComments =
      st.gateComments ++ [buildPlanGateComment ctx.sessionId ctx.plansDir] ∧
    (prpPhaseCheck ctx st).actionNotifies = st.actionNotifies + 1 ∧
    (prpPhaseCheck ctx st).metaPhase = some "plan_gate" := by
  unfold prpPhaseCheck
  rw [hmeta]
  cases hwb : notFalse ctx.wbPlan <;>
    simp [hmap, hen, hgate, hwb, getPrpWritebackComment]

/-- C1: a poll that sees `metadata.prpPhase` transition into
`planning_complete` on a PRP-enabled project with `gates.plan = true` posts
the plan-gate comment (built by `buildPlanGateComment` from the first
`.plan.md` under the workspace plans directory) exactly once, notifies with
priority `action` exactly once, and sets `prpPhase := plan_gate`; every
later poll — including any run after a restart that empties the in-memory
phase map — posts no further gate comment or notification. -/
theorem plan_gate_fires_exactly_once (ctx : PrpStepCtx) (st : PlanGateState)
    (hmeta : st.metaPhase = some "planning_complete")
    (hmap : st.phaseMap ≠ some "planning_complete")
    (hen : ctx.prpEnabled = true) (hgate : ctx.gatePlan = true) :
    (prpPhaseCheck ctx st).gateComments =
      st.gateComments ++ [buildPlanGateComment ctx.sessionId ctx.plansDir] ∧
    (prpPhaseCheck ctx st).actionNotifies = st.actionNotifies + 1 ∧
    (prpPhaseCheck ctx st).metaPhase = some "plan_gate" ∧
    ∀ st', GateReach ctx (prpPhaseCheck ctx st) st' →
      st'.gateComments = (prpPhaseCheck ctx st).gateComments ∧
      st'.actionNotifies = (prpPhaseCheck ctx st).actionNotifies ∧
      st'.metaPhase = some "plan_gate" := by
  obtain ⟨h1, h2, h3⟩ := prpPhaseCheck_fires_gate ctx st hmeta hmap hen hgate
  refine ⟨h1, h2, h3, ?_⟩
  intro st' hr
  obtain ⟨a, b, c⟩ := gateReach_plan_gate_stable ctx hr h3
  exact ⟨b, c, a⟩

/-- Gate context of the witness scenario: a PRP project with the plan gate
enabled and one plan file in the workspace. -/
def sampleGateCtx : PrpStepCtx :=
  { prpEnabled := true, gatePlan := true, wbInvestigation := none,
    wbPlan := none, wbImplementation := none, sessionId := "app-1",
    plansDir := some [("P.plan.md", "plan body")] }

/-- State of the witness scenario: metadata just moved to
`planning_complete`, last-seen phase `planning`, nothing posted yet. -/
def sampleGateState : PlanGateState :=
  { metaPhase := some "planning_complete", phaseMap := some "planning",
    gateComments := [], wbComments := [], actionNotifies := 0 }

/-- Witness for C1 at the concrete gate scenario. -/
theorem plan_gate_fires_exactly_once_witness :
    sampleGateState.metaPhase = some "planning_complete" ∧
    sampleGateState.phaseMap ≠ some "planning_complete" ∧
    ((prpPhaseCheck sampleGateCtx sampleGateState).gateComments =
      sampleGateState.gateComments ++
        [buildPlanGateComment sampleGateCtx.sessionId sampleGateCtx.plansDir] ∧
    (prpPhaseCheck sampleGateCtx sampleGateState).actionNotifies =
      sampleGateState.actionNotifies + 1 ∧
    (prpPhaseCheck sampleGateCtx sampleGateState).metaPhase = some "plan_gate" ∧
    ∀ st', GateReach sampleGateCtx (prpPhaseCheck sampleGateCtx sampleGateState) st' →
      st'.gateComments = (prpPhaseCheck sampleGateCtx sampleGateState).gateComments ∧
      st'.actionNotifies =
        (prpPhaseCheck sampleGateCtx sampleGateState).actionNotifies ∧
      st'.metaPhase = some "plan_gate") :=
  ⟨rfl, by decide,
    plan_gate_fires_exactly_once sampleGateCtx sampleGateState rfl (by decide) rfl rfl⟩

/-! ## Webhook receiver lemmas -/

/-- Overwriting a present key is observable through `getMeta`. -/
theorem getMeta_map_set (m : List (String × String)) (k v : String)
    (h : ∃ p ∈ m, p.1 = k) :
    getMeta (m.map (fun p => if p.1 = k then (k, v) else p)) k = some v := by
  induction m with
  | nil => simp at h
  | cons q rest ih =>
    by_cases hq : q.1 = k
    · rw [List.map_cons, show (if q.1 = k then (k, v) else q) = (k, v) from if_pos hq]
      unfold getMeta
      rw [List.find?_cons_of_pos _ (by simp)]
      rfl
    · obtain ⟨p, hp, hpk⟩ := h
      rcases List.mem_cons.mp hp with rfl | hmem
      · exact absurd hpk hq
      · have hrec := ih ⟨p, hmem, hpk⟩
        rw [List.map_cons, show (if q.1 = k then (k, v) else q) = q from if_neg hq]
        unfold getMeta at hrec ⊢
        rw [List.find?_cons_of_neg _ (by simpa using hq)]
        exact hrec

theorem getMeta_setMeta_self (m : List (String × String)) (k v : String) :
    getMeta (setMeta m k v) k = some v := by
  unfold setMeta
  split
  · rename_i h
    apply getMeta_map_set
    obtain ⟨p, hp, hpk⟩ := List.any_eq_true.mp h
    exact ⟨p, hp, by simpa using hpk⟩
  · unfold getMeta
    rw [List.find?_cons_of_pos _ (by simp)]
    rfl

/-- `isGatedFor` only reads the event's issue URL and id. -/
theorem isGatedFor_congr (e1 e2 : TrackerEvent) (s : Session)
    (hurl : e1.issueUrl = e2.issueUrl) (hiid : e1.issueId = e2.issueId) :
    isGatedFor e1 s = isGatedFor e2 s := by
  unfold isGatedFor
  rw [hurl, hiid]

/-- After the resume update, no session remains gated for the same issue
(assuming the resumed session was the only gated one). -/
theorem resumeUpdate_no_gated (event2 event : TrackerEvent)
    (sessions : List Session) (gid : String)
    (huniq : ∀ s ∈ sessions, isGatedFor event s = true → s.id = gid)
    (hurl : event2.issueUrl = event.issueUrl) (hiid : event2.issueId = event.issueId) :
    (resumeUpdate sessions gid).find? (isGatedFor event2) = none := by
  rw [List.find?_eq_none]
  intro s' hs'
  rw [resumeUpdate, List.mem_map] at hs'
  obtain ⟨s, hs, rfl⟩ := hs'
  by_cases hid : s.id = gid
  · rw [if_pos hid]
    unfold isGatedFor
    cases hsi : s.issueId with
    | none => simp
    | some iid => simp [getMeta_setMeta_self]
  · rw [if_neg hid]
    rw [isGatedFor_congr event2 event s hurl hiid]
    intro hg
    exact hid (huniq s hs hg)

/-- The comment handler always answers 200. -/
theorem handleIssueComment_status (event : TrackerEvent)
    (config : OrchestratorConfig) (sessions : List Session)
    (trackerResolves sendFails : Bool) :
    (handleIssueComment event config sessions trackerResolves sendFails).1.status = 200 := by
  unfold handleIssueComment
  repeat' split
  all_goals rfl

/-- Non-approval comments are skipped without side effects. -/
theorem handleIssueComment_skips_no_approval (event : TrackerEvent)
    (config : OrchestratorConfig) (sessions : List Session)
    (trackerResolves sendFails : Bool)
    (h : ¬ (truthyStr event.commentBody = true ∧
      testApproval (event.commentBody.getD "") = true)) :
    handleIssueComment event config sessions trackerResolves sendFails =
      (⟨200, true, none, some "not an approval comment", none, none⟩, noEffects) := by
  unfold handleIssueComment
  rw [if_pos (by tauto)]

/-- With no gated session the handler is a no-op. -/
theorem handleIssueComment_skips_no_gated (event : TrackerEvent)
    (config : OrchestratorConfig) (sessions : List Session)
    (trackerResolves sendFails : Bool)
    (hng : sessions.find? (isGatedFor event) = none) :
    (handleIssueComment event config sessions trackerResolves sendFails).2 =
      noEffects ∧
    (truthyStr event.commentBody = true →
      testApproval (event.commentBody.getD "") = true →
      (handleIssueComment event config sessions trackerResolves sendFails).1.skipped =
        some "no gated session for this issue") := by
  by_cases happ : truthyStr event.commentBody = true ∧
      testApproval (event.commentBody.getD "") = true
  · unfold handleIssueComment
    rw [if_neg (by tauto), hng]
    exact ⟨rfl, fun _ _ => rfl⟩
  · rw [handleIssueComment_skips_no_approval event config sessions
      trackerResolves sendFails happ]
    exact ⟨rfl, fun h1 h2 => absurd ⟨h1, h2⟩ happ⟩

/-- The successful resume path spelled out. -/
theorem handleIssueComment_resumes (event : TrackerEvent)
    (config : OrchestratorConfig) (sessions : List Session) (g : Session)
    (ht : truthyStr event.commentBody = true)
    (ha : testApproval (event.commentBody.getD "") = true)
    (hg : sessions.find? (isGatedFor event) = some g) :
    handleIssueComment event config sessions true false =
      (⟨200, true, none, none, some ("resumed session " ++ g.id), none⟩,
       { sent := some (g.id, resumeMessage),
         metadataUpdated := (lookupProject config g.projectId).map
           (fun _ => (g.id, "prpPhase", "implementing")),
         trackerComments :=
           match lookupProject config g.projectId with
           | some proj =>
             match proj.trackerPlugin with
             | some _ => [(event.issueId, approvedComment g.id)]
             | none => []
           | none => [],
         spawned := none }) := by
  unfold handleIssueComment
  rw [if_neg (by tauto), hg]
  rfl

/-- The failed-send path: caught, reported, no effects. -/
theorem handleIssueComment_send_fails (event : TrackerEvent)
    (config : OrchestratorConfig) (sessions : List Session)
    (trackerResolves : Bool) (g : Session)
    (ht : truthyStr event.commentBody = true)
    (ha : testApproval (event.commentBody.getD "") = true)
    (hg : sessions.find? (isGatedFor event) = some g) :
    handleIssueComment event config sessions trackerResolves true =
      (⟨200, true, none, some "resume failed", none, none⟩, noEffects) := by
  unfold handleIssueComment
  rw [if_neg (by tauto), hg]
  rfl

/-- The HTTP status of `POST` is decided entirely before event handling:
400 on unparseable JSON, 200 skips for a missing repo or a missing or
empty project secret, 500 when `timingSafeEqual` throws, 401 on signature
failure, and 200 for everything after verification. -/
theorem POST_status_cases (hmac : String → String → String)
    (config : OrchestratorConfig) (allSessions : List Session)
    (sessionsOf : String → List Session) (dedup : List (String × Nat))
    (now : Nat) (body : String) (parsed : Option GHPayload)
    (eventType deliveryId : String) (signature : Option String)
    (trackerResolves sendFails : Bool) (spawnResult : Option Session) :
    (POST hmac config allSessions sessionsOf dedup now body parsed eventType
      deliveryId signature trackerResolves sendFails spawnResult).1.status =
      (match parsed with
       | none => 400
       | some payload =>
         match repoOf payload with
         | none => 200
         | some repo =>
           if repo = "" then 200
           else
             match findSecret repo config with
             | none => 200
             | some secret =>
               if secret = "" then 200
               else
                 match verifySignature (hmac secret body) signature "sha256=" with
                 | none => 500
                 | some ok => if ok then 200 else 401) := by
  unfold POST
  dsimp only
  repeat' split
  all_goals first
    | rfl
    | exact handleIssueComment_status _ _ _ _ _
    | simp_all

/-! ## C6 — signature verification vs JSON parsing order -/

/-- C6 counterexample: a request with an unparseable body and NO signature
header at all receives 400, not the claimed 401 — `POST` parses the JSON
body before any signature verification. -/
theorem POST_parses_before_verifying_counterexample :
    (POST (fun _ _ => "ab") sampleConfig [] (fun _ => []) [] 0 "not json"
      none "issues" "d1" none true false none).1.status = 400 ∧
    (POST (fun _ _ => "ab") sampleConfig [] (fun _ => []) [] 0 "not json"
      none "issues" "d1" none true false none).1.status ≠ 401 := by
  decide

/-- C6 amended: `POST` parses the JSON body first (it must, to locate the
per-project secret): 400 iff the body is unparseable, regardless of the
signature; 401 iff the body parsed, a repository with a configured
non-empty secret matched, and `verifySignature` returned false (signature
missing, wrong length, or decoding to different bytes); 500 iff
verification reached `timingSafeEqual` with buffers of different byte
lengths (equal-length non-hex signature), whose throw the route does not
catch; every other request — missing repository, unknown project, empty
secret, or anything after successful verification — gets 200. -/
theorem POST_status_semantics (hmac : String → String → String)
    (config : OrchestratorConfig) (allSessions : List Session)
    (sessionsOf : String → List Session) (dedup : List (String × Nat))
    (now : Nat) (body : String) (parsed : Option GHPayload)
    (eventType deliveryId : String) (signature : Option String)
    (trackerResolves sendFails : Bool) (spawnResult : Option Session) :
    ((POST hmac config allSessions sessionsOf dedup now body parsed eventType
        deliveryId signature trackerResolves sendFails spawnResult).1.status = 400 ↔
      parsed = none) ∧
    ((POST hmac config allSessions sessionsOf dedup now body parsed eventType
        deliveryId signature trackerResolves sendFails spawnResult).1.status = 401 ↔
      ∃ payload repo secret, parsed = some payload ∧
        repoOf payload = some repo ∧ repo ≠ "" ∧
        findSecret repo config = some secret ∧ secret ≠ "" ∧
        verifySignature (hmac secret body) signature "sha256=" = some false) ∧
    ((POST hmac config allSessions sessionsOf dedup now body parsed eventType
        deliveryId signature trackerResolves sendFails spawnResult).1.status = 500 ↔
      ∃ payload repo secret, parsed = some payload ∧
        repoOf payload = some repo ∧ repo ≠ "" ∧
        findSecret repo config = some secret ∧ secret ≠ "" ∧
        verifySignature (hmac secret body) signature "sha256=" = none) ∧
    ((POST hmac config allSessions sessionsOf dedup now body parsed eventType
        deliveryId signature trackerResolves sendFails spawnResult).1.status = 200 ∨
     (POST hmac config allSessions sessionsOf dedup now body parsed eventType
        deliveryId signature trackerResolves sendFails spawnResult).1.status = 400 ∨
     (POST hmac config allSessions sessionsOf dedup now body parsed eventType
        deliveryId signature trackerResolves sendFails spawnResult).1.status = 401 ∨
     (POST hmac config allSessions sessionsOf dedup now body parsed eventType
        deliveryId signature trackerResolves sendFails spawnResult).1.status = 500) := by
  rw [POST_status_cases]
  cases parsed with
  | none =>
    refine ⟨by simp, ?_, ?_, by simp⟩
    · constructor
      · intro h; simp at h
      · rintro ⟨payload, repo, secret, h, _⟩; exact absurd h (by simp)
    · constructor
      · intro h; simp at h
      · rintro ⟨payload, repo, secret, h, _⟩; exact absurd h (by simp)
  | some payload =>
    dsimp only
    cases hrepo : repoOf payload with
    | none =>
      refine ⟨by simp, ?_, ?_, by simp⟩
      all_goals constructor
      · intro h; simp at h
      · rintro ⟨payload', repo, secret, hp, hr, _⟩
        cases hp
        rw [hrepo] at hr
        exact absurd hr (by simp)
      · intro h; simp at h
      · rintro ⟨payload', repo, secret, hp, hr, _⟩
        cases hp
        rw [hrepo] at hr
        exact absurd hr (by simp)
    | some repo =>
      dsimp only
      by_cases hemp : repo = ""
      · subst hemp
        refine ⟨by simp, ?_, ?_, by simp⟩
        all_goals constructor
        · intro h; simp at h
        · rintro ⟨payload', repo', secret, hp, hr, hne, _⟩
          cases hp
          rw [hrepo] at hr
          cases hr
          exact absurd rfl hne
        · intro h; simp at h
        · rintro ⟨payload', repo', secret, hp, hr, hne, _⟩
          cases hp
          rw [hrepo] at hr
          cases hr
          exact absurd rfl hne
      · rw [if_neg hemp]
        cases hsec : findSecret repo config with
        | none =>
          refine ⟨by simp, ?_, ?_, by simp⟩
          all_goals constructor
          · intro h; simp at h
          · rintro ⟨payload', repo', secret, hp, hr, hne, hs, _⟩
            cases hp
            rw [hrepo] at hr
            cases hr
            rw [hsec] at hs
            exact absurd hs (by simp)
          · intro h; simp at h
          · rintro ⟨payload', repo', secret, hp, hr, hne, hs, _⟩
            cases hp
            rw [hrepo] at hr
            cases hr
            rw [hsec] at hs
            exact absurd hs (by simp)
        | some secret =>
          dsimp only
          by_cases hsemp : secret = ""
          · subst hsemp
            rw [if_pos rfl]
            refine ⟨by simp, ?_, ?_, by simp⟩
            all_goals constructor
            · intro h; simp at h
            · rintro ⟨payload', repo', secret', hp, hr, hne, hs, hsne, _⟩
              cases hp
              rw [hrepo] at hr
              cases hr
              rw [hsec] at hs
              cases hs
              exact absurd rfl hsne
            · intro h; simp at h
            · rintro ⟨payload', repo', secret', hp, hr, hne, hs, hsne, _⟩
              cases hp
              rw [hrepo] at hr
              cases hr
              rw [hsec] at hs
              cases hs
              exact absurd rfl hsne
          · rw [if_neg hsemp]
            cases hsig : verifySignature (hmac secret body) signature "sha256=" with
            | none =>
              refine ⟨by simp, ?_, ?_, by simp⟩
              · constructor
                · intro h; simp at h
                · rintro ⟨payload', repo', secret', hp, hr, hne, hs, hsne, hv⟩
                  cases hp
                  rw [hrepo] at hr
                  cases hr
                  rw [hsec] at hs
                  cases hs
                  rw [hsig] at hv
                  exact absurd hv (by simp)
              · constructor
                · intro _
                  exact ⟨payload, repo, secret, rfl, hrepo, hemp, hsec, hsemp, hsig⟩
                · intro _; rfl
            | some ok =>
              cases ok with
              | true =>
                dsimp only
                rw [if_pos rfl]
                refine ⟨by simp, ?_, ?_, by simp⟩
                all_goals constructor
                · intro h; simp at h
                · rintro ⟨payload', repo', secret', hp, hr, hne, hs, hsne, hv⟩
                  cases hp
                  rw [hrepo] at hr
                  cases hr
                  rw [hsec] at hs
                  cases hs
                  rw [hsig] at hv
                  exact absurd hv (by simp)
                · intro h; simp at h
                · rintro ⟨payload', repo', secret', hp, hr, hne, hs, hsne, hv⟩
                  cases hp
                  rw [hrepo] at hr
                  cases hr
                  rw [hsec] at hs
                  cases hs
                  rw [hsig] at hv
                  exact absurd hv (by simp)
              | false =>
                dsimp only
                rw [if_neg (by simp)]
                refine ⟨by simp, ?_, ?_, by simp⟩
                · constructor
                  · intro _
                    exact ⟨payload, repo, secret, rfl, hrepo, hemp, hsec, hsemp, hsig⟩
                  · intro _; rfl
                · constructor
                  · intro h; simp at h
                  · rintro ⟨payload', repo', secret', hp, hr, hne, hs, hsne, hv⟩
                    cases hp
                    rw [hrepo] at hr
                    cases hr
                    rw [hsec] at hs
                    cases hs
                    rw [hsig] at hv
                    exact absurd hv (by simp)

/-! ## C7 — approval comment resumes the gated session, idempotently -/

/-- Side condition of the resume path: the gated session's project exists
in the config and has a tracker plugin configured (holds for any session
the orchestrator itself spawned). -/
def gatedProjectOk (config : OrchestratorConfig) (sessions : List Session)
    (event : TrackerEvent) : Bool :=
  match sessions.find? (isGatedFor event) with
  | none => true
  | some g =>
    match lookupProject config g.projectId with
    | none => false
    | some proj => proj.trackerPlugin.isSome

/-- C7: with a working send, the handler sends the resume message, updates
the session's `prpPhase` to `implementing` and posts the confirmation
comment iff the comment body matches the approval regex AND some session
matches the event's issue with `prpPhase = plan_gate`; and once the gated
session (unique for its issue) has been resumed, any later approval
comment on the same issue finds no gated session and changes nothing. -/
theorem approval_resume_iff_and_idempotent (event : TrackerEvent)
    (config : OrchestratorConfig) (sessions : List Session)
    (hok : gatedProjectOk config sessions event = true) :
    ((∃ g, sessions.find? (isGatedFor event) = some g ∧
        (handleIssueComment event config sessions true false).2.sent =
          some (g.id, resumeMessage) ∧
        (handleIssueComment event config sessions true false).2.metadataUpdated =
          some (g.id, "prpPhase", "implementing") ∧
        (handleIssueComment event config sessions true false).2.trackerComments =
          [(event.issueId, approvedComment g.id)]) ↔
      (truthyStr event.commentBody = true ∧
        testApproval (event.commentBody.getD "") = true ∧
        ∃ s ∈ sessions, isGatedFor event s = true)) ∧
    (∀ g, sessions.find? (isGatedFor event) = some g →
      (∀ s ∈ sessions, isGatedFor event s = true → s.id = g.id) →
      ∀ (event2 : TrackerEvent) (tr2 sf2 : Bool),
        event2.issueUrl = event.issueUrl → event2.issueId = event.issueId →
        (handleIssueComment event2 config (resumeUpdate sessions g.id) tr2 sf2).2 =
          noEffects ∧
        (truthyStr event2.commentBody = true →
          testApproval (event2.commentBody.getD "") = true →
          (handleIssueComment event2 config
            (resumeUpdate sessions g.id) tr2 sf2).1.skipped =
            some "no gated session for this issue")) := by
  constructor
  · constructor
    · rintro ⟨g, hg, hsent, _hmeta, _hcomm⟩
      by_cases happ : truthyStr event.commentBody = true ∧
          testApproval (event.commentBody.getD "") = true
      · exact ⟨happ.1, happ.2, g, List.mem_of_find?_eq_some hg, List.find?_some hg⟩
      · rw [handleIssueComment_skips_no_approval event config sessions true false happ]
          at hsent
        simp [noEffects] at hsent
    · rintro ⟨ht, ha, s, hsmem, hsga⟩
      have hfind : (sessions.find? (isGatedFor event)).isSome := by
        rw [List.find?_isSome]
        exact ⟨s, hsmem, hsga⟩
      obtain ⟨g, hg⟩ := Option.isSome_iff_exists.mp hfind
      have hokg := hok
      unfold gatedProjectOk at hokg
      rw [hg] at hokg
      dsimp only at hokg
      cases hproj : lookupProject config g.projectId with
      | none => rw [hproj] at hokg; simp at hokg
      | some proj =>
        rw [hproj] at hokg
        dsimp only at hokg
        obtain ⟨tp, htp⟩ := Option.isSome_iff_exists.mp hokg
        rw [handleIssueComment_resumes event config sessions g ht ha hg]
        exact ⟨g, hg, rfl, by simp [hproj], by simp [hproj, htp]⟩
  · intro g hg huniq event2 tr2 sf2 hurl hiid
    exact handleIssueComment_skips_no_gated event2 config _ tr2 sf2
      (resumeUpdate_no_gated event2 event sessions g.id huniq hurl hiid)

/-- A session paused at the plan gate for issue 42. -/
def gatedSession : Session :=
  { id := "app-1", projectId := "app", status := "working",
    issueId := some "https://github.com/org/app/issues/42",
    metadata := [("prpPhase", "plan_gate")], branch := none }

/-- The normalized `issue_comment(created)` approval event for issue 42. -/
def approvalEvent : TrackerEvent :=
  { provider := "github", deliveryId := "d1", event := "issue.comment",
    action := "created", issueNumber := 42, issueId := "42",
    issueUrl := "https://github.com/org/app/issues/42", repo := "org/app",
    label := none, assignee := none, commentBody := some "approved" }

/-- Witness for C7 at the concrete approval scenario. -/
theorem approval_resume_iff_and_idempotent_witness :
    gatedProjectOk sampleConfig [gatedSession] approvalEvent = true ∧
    ((∃ g, [gatedSession].find? (isGatedFor approvalEvent) = some g ∧
        (handleIssueComment approvalEvent sampleConfig [gatedSession] true false).2.sent =
          some (g.id, resumeMessage) ∧
        (handleIssueComment approvalEvent sampleConfig
          [gatedSession] true false).2.metadataUpdated =
          some (g.id, "prpPhase", "implementing") ∧
        (handleIssueComment approvalEvent sampleConfig
          [gatedSession] true false).2.trackerComments =
          [(approvalEvent.issueId, approvedComment g.id)]) ↔
      (truthyStr approvalEvent.commentBody = true ∧
        testApproval (approvalEvent.commentBody.getD "") = true ∧
        ∃ s ∈ [gatedSession], isGatedFor approvalEvent s = true)) ∧
    (∀ g, [gatedSession].find? (isGatedFor approvalEvent) = some g →
      (∀ s ∈ [gatedSession], isGatedFor approvalEvent s = true → s.id = g.id) →
      ∀ (event2 : TrackerEvent) (tr2 sf2 : Bool),
        event2.issueUrl = approvalEvent.issueUrl →
        event2.issueId = approvalEvent.issueId →
        (handleIssueComment event2 sampleConfig
          (resumeUpdate [gatedSession] g.id) tr2 sf2).2 = noEffects ∧
        (truthyStr event2.commentBody = true →
          testApproval (event2.commentBody.getD "") = true →
          (handleIssueComment event2 sampleConfig
            (resumeUpdate [gatedSession] g.id) tr2 sf2).1.skipped =
            some "no gated session for this issue")) :=
  ⟨by decide,
    approval_resume_iff_and_idempotent approvalEvent sampleConfig [gatedSession]
      (by decide)⟩

/-! ## C10 — failed resume send leaves everything unchanged -/

/-- C10: if `sessionManager.send` throws while the webhook handler resumes
a gated session, the handler catches it: no metadata update, no
confirmation comment, and the endpoint still answers 200 (with
`skipped = "resume failed"`). -/
theorem resume_send_failure_harmless (hmac : String → String → String)
    (config : OrchestratorConfig) (allSessions : List Session)
    (sessionsOf : String → List Session) (dedup : List (String × Nat))
    (now : Nat) (body : String) (payload : GHPayload)
    (eventType deliveryId : String) (signature : Option String)
    (trackerResolves : Bool) (spawnResult : Option Session)
    (repo secret : String) (ev : TrackerEvent) (g : Session)
    (hrepo : repoOf payload = some repo) (hne : repo ≠ "")
    (hsec : findSecret repo config = some secret) (hsne : secret ≠ "")
    (hsig : verifySignature (hmac secret body) signature "sha256=" = some true)
    (hnorm : normalizeGitHubEvent eventType (payload.action.getD "")
      deliveryId payload = some ev)
    (hevc : ev.event = "issue.comment")
    (ht : truthyStr ev.commentBody = true)
    (ha : testApproval (ev.commentBody.getD "") = true)
    (hg : allSessions.find? (isGatedFor ev) = some g) :
    (POST hmac config allSessions sessionsOf dedup now body (some payload)
      eventType deliveryId signature trackerResolves true spawnResult).1 =
      ⟨200, true, none, some "resume failed", none, none⟩ ∧
    (POST hmac config allSessions sessionsOf dedup now body (some payload)
      eventType deliveryId signature trackerResolves true spawnResult).2.1 =
      noEffects := by
  have hpost : POST hmac config allSessions sessionsOf dedup now body (some payload)
      eventType deliveryId signature trackerResolves true spawnResult =
      (⟨200, true, none, some "resume failed", none, none⟩, noEffects, dedup) := by
    unfold POST
    dsimp only
    rw [hrepo]
    dsimp only
    rw [if_neg hne, hsec]
    dsimp only
    rw [if_neg hsne, hsig]
    dsimp only
    rw [if_neg (by simp), hnorm]
    dsimp only
    rw [if_pos hevc,
      handleIssueComment_send_fails ev config allSessions trackerResolves g ht ha hg]
  rw [hpost]
  exact ⟨rfl, rfl⟩

/-- The parsed approval-comment payload of the witness request. -/
def approvalPayload : GHPayload :=
  { action := some "created",
    issue := some ⟨42, "T", "open", [], [],
      "https://github.com/org/app/issues/42"⟩,
    comment := some (some "approved"), repository := some (some "org/app"),
    sender := some "reviewer", label := none, assignee := none }

/-- Witness for C10 at a concrete signed request with a failing send. -/
theorem resume_send_failure_harmless_witness :
    [gatedSession].find? (isGatedFor approvalEvent) = some gatedSession ∧
    ((POST (fun _ _ => "ab") sampleConfig [gatedSession] (fun _ => []) [] 0
      "body" (some approvalPayload) "issue_comment" "d1" (some "sha256=ab")
      true true none).1 = ⟨200, true, none, some "resume failed", none, none⟩ ∧
    (POST (fun _ _ => "ab") sampleConfig [gatedSession] (fun _ => []) [] 0
      "body" (some approvalPayload) "issue_comment" "d1" (some "sha256=ab")
      true true none).2.1 = noEffects) :=
  ⟨by decide,
    resume_send_failure_harmless (fun _ _ => "ab") sampleConfig [gatedSession]
      (fun _ => []) [] 0 "body" approvalPayload "issue_comment" "d1"
      (some "sha256=ab") true none "org/app" "sec" approvalEvent gatedSession
      (by decide) (by decide) (by decide) (by decide) (by decide) (by decide) rfl
      (by decide) (by decide) (by decide)⟩

end AO
